import Mathlib

/-!
Verification of the query-orchestration and result-composition layer of the
Kineto movie recommender (streamlit_app.py): a shallow embedding of the
session-state handlers, the dual-track flattening of engine results, the
title-resolution / field-defaulting logic, and the auth-form validators,
with theorems settling the specification's testable properties.

Conventions of the embedding:
- The engine's duck-typed result object is modelled as a structure whose
  four probed attributes are `Option`s (`none` = attribute absent); Python
  truthiness of a list is non-emptiness, of an optional flag is the flag.
- Python floats appear only as opaque scalar payloads (never computed on),
  so a float cell is either a finite value (integer payload) or NaN.
- `re.match` with the e-mail pattern is embedded as an executable matcher
  for the pattern's language; Python's `$` also matches just before one
  final newline, hence `stripFinalNewline`.
-/

namespace Kineto

/-- One recommendation produced by the engine (`movie_title`, `final_score`,
plus the optionally present display attributes probed with `getattr`). -/
structure Movie where
  movie_title : String
  final_score : Int
  year : Option Int
  overview : Option String
deriving DecidableEq

/-- The engine's result object as probed by `page_search`: each of the four
attributes read with `hasattr`/direct access is `none` when absent. -/
structure EngineResult where
  recommendations : Option (List Movie)
  dual_track_mode : Option Bool
  entity_track : Option (List Movie)
  mood_track : Option (List Movie)
deriving DecidableEq

/-- Python truthiness of an optionally present list attribute:
`hasattr(r, a) and r.a` for a list-valued `a`. -/
def truthyList : Option (List Movie) → Bool
  | none => false
  | some l => !l.isEmpty

/-- Python truthiness of an optionally present boolean attribute. -/
def truthyFlag : Option Bool → Bool
  | none => false
  | some b => b

/-- Lines 622-624 / 672-674: dual-track iff the flag is present and truthy
and both tracks are present and non-empty. -/
def is_dual (r : EngineResult) : Bool :=
  truthyFlag r.dual_track_mode && truthyList r.entity_track && truthyList r.mood_track

/-- The `enumerate(..., start)` loop of lines 627-634: pair each movie with
its 1-based rank and its title, ranks counting up from `i`. -/
def rankFrom : Nat → List Movie → List (Nat × String × Movie)
  | _, [] => []
  | i, m :: ms => (i, m.movie_title, m) :: rankFrom (i + 1) ms

/-- Lines 620-634: build `all_movies` from the engine result.  Dual-track:
first `top_n` of the entity track ranked from 1, then first `top_n` of the
mood track ranked from `len(entity_track[:top_n]) + 1`.  Otherwise the
`recommendations` attribute is read directly, raising `AttributeError`
(modelled as `Except.error`) when it is absent. -/
def buildMovieList (r : EngineResult) (top_n : Nat) :
    Except String (List (Nat × String × Movie)) :=
  if is_dual r then
    let et := (r.entity_track.getD []).take top_n
    let mt := (r.mood_track.getD []).take top_n
    Except.ok (rankFrom 1 et ++ rankFrom (et.length + 1) mt)
  else
    match r.recommendations with
    | none => Except.error "AttributeError: recommendations"
    | some recs => Except.ok (rankFrom 1 (recs.take top_n))

/-- The three ways the result panel of lines 644-724 can render. -/
inductive DisplayOutcome where
  | dualPanels
  | singleList
  | noMoviesFound
deriving DecidableEq

/-- Lines 644-724: the display pass over a stored (non-None) result.  Line
648 evaluates `result.recommendations` first (direct attribute access, so
absence raises `AttributeError`); an empty list falls to the line-724
"No movies found" branch; only then is the dual-track check of line 672
consulted. -/
def displayResults (r : EngineResult) : Except String DisplayOutcome :=
  match r.recommendations with
  | none => Except.error "AttributeError: recommendations"
  | some recs =>
    if recs.isEmpty then Except.ok DisplayOutcome.noMoviesFound
    else if is_dual r then Except.ok DisplayOutcome.dualPanels
    else Except.ok DisplayOutcome.singleList

/-- The session-state fields of `init_session_state` plus the two keys the
search handler adds (`query_input`, `top_n`); `top_n` is `none` until a
search stores it.  `search_time` (a wall-clock float only echoed back to
the user) is not modelled. -/
structure SessionState where
  page : String
  search_results : Option EngineResult
  all_movies_list : List (Nat × String × Movie)
  last_query : String
  user_info : List (String × String)
  logged_in : Bool
  query_input : String
  top_n : Option Nat
deriving DecidableEq

/-- Lines 23-38: the defaults installed on first interaction. -/
def initState : SessionState :=
  { page := "welcome"
    search_results := none
    all_movies_list := []
    last_query := ""
    user_info := []
    logged_in := false
    query_input := ""
    top_n := none }

/-- Line 156-159: `navigate_to` sets the page. -/
def navigate_to (s : SessionState) (p : String) : SessionState :=
  { s with page := p }

/-- Python dict assignment `info[key] = value` on the user-info mapping. -/
def setUserField (info : List (String × String)) (key value : String) :
    List (String × String) :=
  (key, value) :: info.filter (fun p => p.1 != key)

/-- Lines 257-260: successful signup stores the email, marks the session
logged in and moves to the profile page. -/
def signupSubmit (s : SessionState) (email : String) : SessionState :=
  { navigate_to s "profile" with
    user_info := setUserField s.user_info "email" email
    logged_in := true }

/-- Lines 296-299: successful login, identical effect to signup. -/
def loginSubmit (s : SessionState) (email : String) : SessionState :=
  { navigate_to s "profile" with
    user_info := setUserField s.user_info "email" email
    logged_in := true }

/-- Lines 364-379: the profile form folds its field values into `user_info`
and moves to the search page. -/
def profileNext (s : SessionState) (fields : List (String × String)) : SessionState :=
  { navigate_to s "search" with
    user_info := fields.foldl (fun m p => setUserField m p.1 p.2) s.user_info }

/-- Lines 557-561: an example-query button stores the query text and clears
both the stored result and the flattened list. -/
def exampleQueryClick (s : SessionState) (q : String) : SessionState :=
  { s with query_input := q, search_results := none, all_movies_list := [] }

/-- Lines 592-597: the Random button, with the chosen example query `q`
supplied externally; same clearing as an example-query click. -/
def randomClick (s : SessionState) (q : String) : SessionState :=
  { s with query_input := q, search_results := none, all_movies_list := [] }

/-- Lines 569-574: logout resets the logged-in flag, the user info, the page
and the stored result.  `all_movies_list` is NOT touched here. -/
def logoutClick (s : SessionState) : SessionState :=
  { s with
    logged_in := false
    user_info := []
    page := "welcome"
    search_results := none }

/-- Lines 604-641: the search action.  Nothing happens unless the button was
pressed with a non-empty query.  The engine call's outcome is the `engine`
argument; on an exception (`Except.error`) the handler only emits the error
text (lines 638-641) and the state is untouched.  On success, lines 615-618
store the result, the query and `top_n`, and lines 620-636 build and store
the flattened list (an `AttributeError` there is caught by the same
`except`, by which point the result fields are already stored). -/
def searchAction (s : SessionState) (query : String) (_preference_mode : String)
    (top_n : Nat) (engine : Except String EngineResult) :
    SessionState × Option String :=
  if query = "" then (s, none)
  else
    match engine with
    | Except.error e => (s, some ("Error: " ++ e))
    | Except.ok result =>
      let s1 := { s with
                  search_results := some result
                  last_query := query
                  top_n := some top_n }
      match buildMovieList result top_n with
      | Except.error e => (s1, some ("Error: " ++ e))
      | Except.ok lst => ({ s1 with all_movies_list := lst }, none)

/-- The spec's session invariant: the flattened list is empty whenever no
result is stored. -/
def sessionInv (s : SessionState) : Prop :=
  s.search_results = none → s.all_movies_list = []

/-- Character class `[a-zA-Z0-9._%+-]` of the e-mail pattern's local part. -/
def isLocalChar (c : Char) : Bool :=
  c.isAlpha || c.isDigit || c == '.' || c == '_' || c == '%' || c == '+' || c == '-'

/-- Character class `[a-zA-Z0-9.-]` of the e-mail pattern's domain part. -/
def isDomainChar (c : Char) : Bool :=
  c.isAlpha || c.isDigit || c == '.' || c == '-'

/-- Matches `[a-zA-Z]{2,}` against the whole input: the TLD. -/
def matchTld (cs : List Char) : Bool :=
  decide (2 ≤ cs.length) && cs.all (fun c => c.isAlpha)

/-- Matches `[a-zA-Z0-9.-]*\.[a-zA-Z]{2,}` against the whole input. -/
def matchDomTail : List Char → Bool
  | [] => false
  | c :: cs => (c == '.' && matchTld cs) || (isDomainChar c && matchDomTail cs)

/-- Matches `[a-zA-Z0-9.-]+\.[a-zA-Z]{2,}` against the whole input. -/
def matchDomain : List Char → Bool
  | [] => false
  | c :: cs => isDomainChar c && matchDomTail cs

/-- Matches `[a-zA-Z0-9._%+-]*@` followed by the domain pattern.  An `@` is
in no character class of the pattern, so the pattern's `@` is necessarily
the input's first `@`. -/
def matchLocalTail : List Char → Bool
  | [] => false
  | c :: cs => if c == '@' then matchDomain cs else isLocalChar c && matchLocalTail cs

/-- Matches the whole e-mail pattern (non-empty local part). -/
def matchEmail : List Char → Bool
  | [] => false
  | c :: cs => isLocalChar c && matchLocalTail cs

/-- Python's `$` (without MULTILINE) also matches just before a single final
newline, so `re.match(pat + '$', s)` accepts `s` with one trailing newline
dropped. -/
def stripFinalNewline (cs : List Char) : List Char :=
  if cs.getLast? == some '\n' then cs.dropLast else cs

/-- Lines 128-131: `re.match(r'^[a-zA-Z0-9._%+-]+@[a-zA-Z0-9.-]+\.[a-zA-Z]{2,}$', email) is not None`. -/
def validate_email (email : String) : Bool :=
  matchEmail (stripFinalNewline email.data)

/-- The declarative shape the pattern accepts: `local@domain.tld` with a
non-empty local part over its class, a non-empty domain part over its
class, and an alphabetic TLD of length at least 2. -/
def EmailShape (cs : List Char) : Prop :=
  ∃ l d t : List Char,
    cs = l ++ '@' :: (d ++ '.' :: t) ∧
    l ≠ [] ∧ (∀ c ∈ l, isLocalChar c = true) ∧
    d ≠ [] ∧ (∀ c ∈ d, isDomainChar c = true) ∧
    2 ≤ t.length ∧ (∀ c ∈ t, c.isAlpha = true)

/-- Python truthiness of a string: non-empty. -/
def truthy (s : String) : Bool := s != ""

/-- Lines 238-244: the signup page's validation cascade, `none` when no
violation applies. -/
def signup_error (email password verify_password : String) : Option String :=
  if truthy email && !validate_email email then
    some "Please enter a valid email address."
  else if truthy password && truthy verify_password && password != verify_password then
    some "Passwords do not match."
  else if truthy password && decide (password.length < 6) then
    some "Password must be at least 6 characters."
  else none

/-- A value of a catalog cell as the resolver distinguishes them: a string,
a finite float (payload opaque, kept as an integer), a float NaN, a list,
or an explicit None. -/
inductive PyVal where
  | pstr : String → PyVal
  | pnum : Int → PyVal
  | pnan : PyVal
  | plist : List String → PyVal
  | pnone : PyVal
deriving DecidableEq

/-- A row of the `movies` catalog.  The `title` column always exists and a
row reached through matching has a non-NaN string title (the exact match
compares it, the fallback passes `na=False`), so `title` is a plain string;
the remaining cells are an association list. -/
structure CatalogRow where
  title : String
  fields : List (String × PyVal)
deriving DecidableEq

/-- `movie.get(key, ...)` without its default: the cell when present. -/
def rowGet (row : CatalogRow) (key : String) : Option PyVal :=
  if key == "title" then some (PyVal.pstr row.title) else row.fields.lookup key

/-- Character-wise ASCII lowering.  Python's `str.lower()` is Unicode-aware,
so the general resolution theorems abstract the lowering as a parameter
`low`; `asciiLower` instantiates it only at concrete all-ASCII strings,
where the two provably coincide character by character. -/
def asciiLower (s : String) : String := String.mk (s.data.map Char.toLower)

/-- Line 397, with Python's `str.lower()` abstracted as `low`: rows whose
lowered title equals the lowered query, in catalog order. -/
def exactMatches (low : String → String) (catalog : List CatalogRow)
    (movie_title : String) : List CatalogRow :=
  catalog.filter (fun row => low row.title == low movie_title)

/-- Substring containment on character lists.  pandas `str.contains` reads
its pattern as a regular expression (`regex=True` by default); exactly for
patterns free of regex metacharacters that is substring containment, so
this serves only to instantiate the abstract containment parameter at such
concrete patterns — the general theorems quantify over the containment. -/
def containsSub (sub : List Char) : List Char → Bool
  | [] => sub.isEmpty
  | c :: rest => sub.isPrefixOf (c :: rest) || containsSub sub rest

/-- `containsSub` as a `haystack`/`pattern` test on strings, the shape of
pandas `Series.str.contains`. -/
def substrContains (haystack pat : String) : Bool :=
  containsSub pat.data haystack.data

/-- Line 401, with `str.lower()` abstracted as `low` and pandas
`str.contains(pat, na=False)` abstracted as `contains haystack pat` (its
regex semantics live in pandas, outside this layer): rows whose lowered
title contains the lowered query. -/
def subMatches (low : String → String) (contains : String → String → Bool)
    (catalog : List CatalogRow) (movie_title : String) : List CatalogRow :=
  catalog.filter (fun row => contains (low row.title) (low movie_title))

/-- Lines 397-406: exact matches first; only when there are none, the
contains fallback; `match.iloc[0]` is the head, emptiness is not-found. -/
def firstMatch (low : String → String) (contains : String → String → Bool)
    (catalog : List CatalogRow) (movie_title : String) : Option CatalogRow :=
  if (exactMatches low catalog movie_title).isEmpty
  then (subMatches low contains catalog movie_title).head?
  else (exactMatches low catalog movie_title).head?

/-- Lines 408-420: `safe_get`.  `movie.get(key, default)` falls back to the
default when the key is missing; an explicit None, an empty list/tuple and
a float NaN are each replaced by the default; everything else is returned
as is. -/
def safe_get (row : CatalogRow) (key : String) (default : PyVal) : PyVal :=
  match (rowGet row key).getD default with
  | PyVal.pnone => default
  | PyVal.plist xs => if 0 < xs.length then PyVal.plist xs else default
  | PyVal.pnan => default
  | v => v

/-- The nine projected fields of lines 422-432. -/
structure MovieDetails where
  title : PyVal
  year : PyVal
  directors : PyVal
  cast : PyVal
  production_companies : PyVal
  overview : PyVal
  genres : PyVal
  runtime : PyVal
  vote_average : PyVal
deriving DecidableEq

/-- Lines 422-432: the projection of a matched row, with each field's
defined default. -/
def projectRow (row : CatalogRow) (movie_title : String) : MovieDetails :=
  { title := safe_get row "title" (PyVal.pstr movie_title)
    year := safe_get row "year" (PyVal.pstr "N/A")
    directors := safe_get row "directors" (PyVal.plist [])
    cast := safe_get row "cast" (PyVal.plist [])
    production_companies := safe_get row "production_companies" (PyVal.plist [])
    overview := safe_get row "overview" (PyVal.pstr "No overview available.")
    genres := safe_get row "genres" (PyVal.plist [])
    runtime := safe_get row "runtime" (PyVal.pstr "N/A")
    vote_average := safe_get row "vote_average" (PyVal.pstr "N/A") }

/-- Lines 392-432 entire: `get_movie_details` resolves a title and projects
the first matching row, `none` when nothing matches.  `low` and `contains`
are the two external string operations the code delegates (Python's
`str.lower()` and pandas `str.contains`); the resolution theorems hold for
every choice of their semantics. -/
def get_movie_details (low : String → String)
    (contains : String → String → Bool)
    (catalog : List CatalogRow) (movie_title : String) : Option MovieDetails :=
  (firstMatch low contains catalog movie_title).map
    (fun row => projectRow row movie_title)

/-- A raw value the UI must never receive: an explicit None or a float NaN. -/
def isBadVal : PyVal → Bool
  | PyVal.pnone => true
  | PyVal.pnan => true
  | _ => false

/-- The cells for which `safe_get` substitutes the default: a missing key,
an explicit None, a float NaN, or an empty list/tuple. -/
def needsDefault : Option PyVal → Bool
  | none => true
  | some PyVal.pnone => true
  | some PyVal.pnan => true
  | some (PyVal.plist xs) => xs.isEmpty
  | some _ => false

/-- Concrete movies used to instantiate the theorems. -/
def mHeat : Movie :=
  { movie_title := "Heat"
    final_score := 95
    year := some 1995
    overview := some "A thief and a detective circle each other." }

def mRonin : Movie :=
  { movie_title := "Ronin", final_score := 88, year := some 1998, overview := none }

def mAmelie : Movie :=
  { movie_title := "Amelie"
    final_score := 91
    year := some 2001
    overview := some "A whimsical Parisian tale." }

/-- A dual-track engine result: flag set, both tracks non-empty. -/
def demoDual : EngineResult :=
  { recommendations := some [mHeat, mRonin, mAmelie]
    dual_track_mode := some true
    entity_track := some [mHeat, mRonin]
    mood_track := some [mAmelie] }

/-- A single-track engine result (no dual-track attributes at all). -/
def demoSingle : EngineResult :=
  { recommendations := some [mHeat, mRonin]
    dual_track_mode := none
    entity_track := none
    mood_track := none }

/-- Flag set but the mood track empty: the degenerate case the layer must
treat as single-track. -/
def demoFlagOnly : EngineResult :=
  { recommendations := some [mHeat]
    dual_track_mode := some true
    entity_track := some [mHeat]
    mood_track := some [] }

/-- Dual-track shape but with an empty `recommendations` list. -/
def demoDualEmptyRec : EngineResult :=
  { recommendations := some []
    dual_track_mode := some true
    entity_track := some [mHeat]
    mood_track := some [mAmelie] }

/-- A result object carrying no `recommendations` attribute at all. -/
def demoNoRec : EngineResult :=
  { recommendations := none
    dual_track_mode := some true
    entity_track := some [mHeat]
    mood_track := some [mAmelie] }

/-- The flattened list a dual-track search over `demoDual` produces. -/
def demoDualList : List (Nat × String × Movie) :=
  [(1, "Heat", mHeat), (2, "Ronin", mRonin), (3, "Amelie", mAmelie)]

/-- Catalog rows for the Heat / Heat Wave precedence example; the substring
candidate comes first so that exact-match precedence is what is tested. -/
def rowHeatWave : CatalogRow :=
  { title := "Heat Wave", fields := [("year", PyVal.pnum 1974)] }

def rowHeat : CatalogRow :=
  { title := "Heat"
    fields := [("year", PyVal.pnum 1995), ("runtime", PyVal.pnum 170),
               ("overview", PyVal.pstr "A thief and a detective circle each other.")] }

def heatCatalog : List CatalogRow := [rowHeatWave, rowHeat]

/-- A row whose optional cells are each degenerate in a different way. -/
def rowSparse : CatalogRow :=
  { title := "Ghost"
    fields := [("runtime", PyVal.pnan), ("overview", PyVal.pnone),
               ("directors", PyVal.plist []), ("year", PyVal.pnum 1990)] }

/-! Helper lemmas about the rank-assigning enumeration. -/

theorem rankFrom_length (i : Nat) (ms : List Movie) :
    (rankFrom i ms).length = ms.length := by
  induction ms generalizing i with
  | nil => rfl
  | cons m ms ih => simp [rankFrom, ih]

theorem rankFrom_map_fst (i : Nat) (ms : List Movie) :
    (rankFrom i ms).map (fun t => t.1) = List.range' i ms.length := by
  induction ms generalizing i with
  | nil => rfl
  | cons m ms ih => simp [rankFrom, ih, List.range'_succ]

theorem rankFrom_map_rec (i : Nat) (ms : List Movie) :
    (rankFrom i ms).map (fun t => t.2.2) = ms := by
  induction ms generalizing i with
  | nil => rfl
  | cons m ms ih => simp [rankFrom, ih]

theorem buildMovieList_dual (r : EngineResult) (top_n : Nat)
    (lst : List (Nat × String × Movie))
    (hd : is_dual r = true) (hok : buildMovieList r top_n = Except.ok lst) :
    lst = rankFrom 1 ((r.entity_track.getD []).take top_n)
        ++ rankFrom (((r.entity_track.getD []).take top_n).length + 1)
             ((r.mood_track.getD []).take top_n) := by
  simp only [buildMovieList, hd, if_true, Except.ok.injEq] at hok
  exact hok.symm

/-- C1: for every engine result and `top_n ∈ [5,20]`, the flattened list
carries at most `top_n` entries per track, its ranks are the contiguous
sequence `1, 2, ...` over its whole length, and in the dual-track case the
first `k1 = min(top_n, |entity_track|)` entries are ranked `1..k1` while the
mood-track entries are ranked from `k1 + 1` onward. -/
theorem flatten_rank_contiguous (r : EngineResult) (top_n : Nat)
    (lst : List (Nat × String × Movie))
    (h5 : 5 ≤ top_n) (h20 : top_n ≤ 20)
    (hok : buildMovieList r top_n = Except.ok lst) :
    lst.map (fun t => t.1) = List.range' 1 lst.length ∧
    (is_dual r = true →
      lst.length = min top_n (r.entity_track.getD []).length
                    + min top_n (r.mood_track.getD []).length ∧
      min top_n (r.entity_track.getD []).length ≤ top_n ∧
      min top_n (r.mood_track.getD []).length ≤ top_n ∧
      (lst.take (min top_n (r.entity_track.getD []).length)).map (fun t => t.1)
        = List.range' 1 (min top_n (r.entity_track.getD []).length) ∧
      (lst.drop (min top_n (r.entity_track.getD []).length)).map (fun t => t.1)
        = List.range' (min top_n (r.entity_track.getD []).length + 1)
            (min top_n (r.mood_track.getD []).length)) ∧
    (is_dual r = false → lst.length ≤ top_n) := by
  by_cases hd : is_dual r = true
  · have hlst := buildMovieList_dual r top_n lst hd hok
    have hA : (rankFrom 1 ((r.entity_track.getD []).take top_n)).length
        = min top_n (r.entity_track.getD []).length := by
      rw [rankFrom_length, List.length_take]
    have hB : (rankFrom (((r.entity_track.getD []).take top_n).length + 1)
          ((r.mood_track.getD []).take top_n)).length
        = min top_n (r.mood_track.getD []).length := by
      rw [rankFrom_length, List.length_take]
    have hlen : lst.length = min top_n (r.entity_track.getD []).length
        + min top_n (r.mood_track.getD []).length := by
      rw [hlst, List.length_append, hA, hB]
    have htake : lst.take (min top_n (r.entity_track.getD []).length)
        = rankFrom 1 ((r.entity_track.getD []).take top_n) := by
      rw [hlst]; exact List.take_left' hA
    have hdrop : lst.drop (min top_n (r.entity_track.getD []).length)
        = rankFrom (((r.entity_track.getD []).take top_n).length + 1)
            ((r.mood_track.getD []).take top_n) := by
      rw [hlst]; exact List.drop_left' hA
    refine ⟨?_, fun _ => ⟨hlen, Nat.min_le_left _ _, Nat.min_le_left _ _, ?_, ?_⟩,
      fun hnd => absurd hd (by simp [hnd])⟩
    · rw [hlst, List.map_append, rankFrom_map_fst, rankFrom_map_fst,
        List.length_append, rankFrom_length, rankFrom_length,
        Nat.add_comm ((r.entity_track.getD []).take top_n).length 1,
        List.range'_append_1]
      congr 1
      omega
    · rw [htake, rankFrom_map_fst, List.length_take]
    · rw [hdrop, rankFrom_map_fst, List.length_take, List.length_take]
  · have hnd : is_dual r = false := by simpa using hd
    refine ⟨?_, fun h => absurd h hd, fun _ => ?_⟩
    · simp only [buildMovieList, hnd, Bool.false_eq_true, if_false] at hok
      cases hrec : r.recommendations with
      | none => rw [hrec] at hok; cases hok
      | some recs =>
        rw [hrec] at hok
        simp only [Except.ok.injEq] at hok
        rw [← hok, rankFrom_map_fst, rankFrom_length]
    · simp only [buildMovieList, hnd, Bool.false_eq_true, if_false] at hok
      cases hrec : r.recommendations with
      | none => rw [hrec] at hok; cases hok
      | some recs =>
        rw [hrec] at hok
        simp only [Except.ok.injEq] at hok
        rw [← hok, rankFrom_length, List.length_take]
        exact Nat.min_le_left _ _

/-- Witness for C1: the theorem applied to the concrete dual-track result
`demoDual` at `top_n = 5`. -/
theorem flatten_rank_contiguous_witness :
    demoDualList.map (fun t => t.1) = List.range' 1 demoDualList.length :=
  (flatten_rank_contiguous demoDual 5 demoDualList (by decide) (by decide) rfl).1

/-- C3: dual-track flattening preserves presentation order: the records of
the flattened list are exactly the first `top_n` entity-track entries
followed by the first `top_n` mood-track entries, each in the engine's
order (never merged or re-sorted by `final_score`), and every entity-track
entry's rank is below every mood-track entry's rank. -/
theorem dual_track_order_preserving (r : EngineResult) (top_n : Nat)
    (lst : List (Nat × String × Movie))
    (hdual : is_dual r = true)
    (hok : buildMovieList r top_n = Except.ok lst) :
    lst.map (fun t => t.2.2)
      = (r.entity_track.getD []).take top_n ++ (r.mood_track.getD []).take top_n ∧
    (∀ p ∈ lst.take (min top_n (r.entity_track.getD []).length),
     ∀ q ∈ lst.drop (min top_n (r.entity_track.getD []).length), p.1 < q.1) := by
  have hlst := buildMovieList_dual r top_n lst hdual hok
  have hA : (rankFrom 1 ((r.entity_track.getD []).take top_n)).length
      = min top_n (r.entity_track.getD []).length := by
    rw [rankFrom_length, List.length_take]
  constructor
  · rw [hlst, List.map_append, rankFrom_map_rec, rankFrom_map_rec]
  · intro p hp q hq
    rw [hlst, List.take_left' hA] at hp
    rw [hlst, List.drop_left' hA] at hq
    have hp1 : p.1 ∈ (rankFrom 1 ((r.entity_track.getD []).take top_n)).map
        (fun t => t.1) := List.mem_map_of_mem _ hp
    have hq1 : q.1 ∈ (rankFrom (((r.entity_track.getD []).take top_n).length + 1)
        ((r.mood_track.getD []).take top_n)).map (fun t => t.1) :=
      List.mem_map_of_mem _ hq
    rw [rankFrom_map_fst, List.mem_range'_1] at hp1 hq1
    omega

/-- Witness for C3: the theorem applied to `demoDual` at `top_n = 5`. -/
theorem dual_track_order_preserving_witness :
    demoDualList.map (fun t => t.2.2)
      = (demoDual.entity_track.getD []).take 5 ++ (demoDual.mood_track.getD []).take 5 :=
  (dual_track_order_preserving demoDual 5 demoDualList (by decide) rfl).1

/-- C2: the layer treats an engine result as dual-track exactly when the
flag attribute is present and true and both track attributes are present
and non-empty; in every other case (the flag set with one track empty
included) the flattening reads the `recommendations` sequence. -/
theorem dual_track_detection (r : EngineResult) (n : Nat) :
    (is_dual r = true ↔
      (r.dual_track_mode = some true ∧
       (∃ l, r.entity_track = some l ∧ l ≠ []) ∧
       (∃ l, r.mood_track = some l ∧ l ≠ []))) ∧
    (is_dual r = false → ∀ recs, r.recommendations = some recs →
      buildMovieList r n = Except.ok (rankFrom 1 (recs.take n))) := by
  constructor
  · rcases r with ⟨rec, dtm, et, mt⟩
    cases dtm <;> cases et <;> cases mt <;>
      simp [is_dual, truthyFlag, truthyList, and_assoc]
  · intro hnd recs hrec
    simp only [buildMovieList, hnd, Bool.false_eq_true, if_false, hrec]

/-- C6: when the engine raises during `recommend`, the search action leaves
the whole session state (in particular `search_results`, `all_movies_list`,
`last_query` and `page`) unchanged and produces a visible error message. -/
theorem search_failure_preserves_state (s : SessionState) (q mode : String)
    (tn : Nat) (e : String) (hq : q ≠ "") :
    searchAction s q mode tn (Except.error e) = (s, some ("Error: " ++ e)) ∧
    (searchAction s q mode tn (Except.error e)).1.search_results = s.search_results ∧
    (searchAction s q mode tn (Except.error e)).1.all_movies_list = s.all_movies_list ∧
    (searchAction s q mode tn (Except.error e)).1.last_query = s.last_query ∧
    (searchAction s q mode tn (Except.error e)).1.page = s.page := by
  have h : searchAction s q mode tn (Except.error e) = (s, some ("Error: " ++ e)) := by
    simp [searchAction, hq]
  refine ⟨h, ?_, ?_, ?_, ?_⟩ <;> rw [h]

/-- Witness for C6: a failing engine call against the fresh session. -/
theorem search_failure_preserves_state_witness :
    searchAction initState "90s action" "balanced" 10 (Except.error "engine failure")
      = (initState, some ("Error: " ++ "engine failure")) :=
  (search_failure_preserves_state initState "90s action" "balanced" 10
    "engine failure" (by decide)).1

/-- Counterexample for C7: starting from the fresh session, a successful
search followed by logout reaches a state whose `search_results` is `None`
while `all_movies_list` is still non-empty — logout (lines 569-574) does
not clear `all_movies_list`. -/
theorem logout_keeps_stale_list :
    (logoutClick (searchAction initState "90s action movies" "balanced" 10
        (Except.ok demoSingle)).1).search_results = none ∧
    (logoutClick (searchAction initState "90s action movies" "balanced" 10
        (Except.ok demoSingle)).1).all_movies_list ≠ [] := by
  constructor
  · rfl
  · decide

/-- C7 as amended: the emptiness invariant holds initially and is preserved
by the example-query and Random buttons, by the search action (success or
failure) and by the signup, login, profile and navigation handlers; logout
however clears `search_results` while leaving `all_movies_list` untouched,
so it does not preserve the invariant. -/
theorem session_inv_amended (s : SessionState) (q mode email p : String)
    (tn : Nat) (eng : Except String EngineResult)
    (fields : List (String × String)) (hs : sessionInv s) :
    sessionInv initState ∧
    sessionInv (exampleQueryClick s q) ∧
    sessionInv (randomClick s q) ∧
    sessionInv (searchAction s q mode tn eng).1 ∧
    sessionInv (signupSubmit s email) ∧
    sessionInv (loginSubmit s email) ∧
    sessionInv (profileNext s fields) ∧
    sessionInv (navigate_to s p) ∧
    (logoutClick s).search_results = none ∧
    (logoutClick s).all_movies_list = s.all_movies_list := by
  refine ⟨fun _ => rfl, fun _ => rfl, fun _ => rfl, ?_,
    fun h => hs h, fun h => hs h, fun h => hs h, fun h => hs h, rfl, rfl⟩
  by_cases hq : q = ""
  · simpa [searchAction, hq] using hs
  · cases eng with
    | error e => simpa [searchAction, hq] using hs
    | ok result =>
      intro h
      cases hb : buildMovieList result tn with
      | error e => simp [searchAction, hq, hb] at h
      | ok lst => simp [searchAction, hq, hb] at h

/-- Witness for C7's amended statement: instantiated at the fresh session. -/
theorem session_inv_amended_witness :
    sessionInv initState ∧ (logoutClick initState).search_results = none ∧
    (logoutClick initState).all_movies_list = initState.all_movies_list := by
  have h := session_inv_amended initState "q" "balanced" "user@example.com"
    "welcome" 5 (Except.ok demoSingle) [] (fun _ => rfl)
  exact ⟨h.1, h.2.2.2.2.2.2.2.2.1, h.2.2.2.2.2.2.2.2.2⟩

/-- C10: the display pass is gated on `result.recommendations` before the
dual-track condition: a dual-track result whose `recommendations` list is
empty renders the "No movies found" branch, and a result carrying no
`recommendations` attribute at all makes the display step fail with an
attribute error instead of falling back. -/
theorem display_gating (r r' : EngineResult)
    (hdual : is_dual r = true) (hempty : r.recommendations = some [])
    (hnone : r'.recommendations = none) :
    displayResults r = Except.ok DisplayOutcome.noMoviesFound ∧
    displayResults r' = Except.error "AttributeError: recommendations" := by
  constructor
  · simp [displayResults, hempty]
  · simp [displayResults, hnone]

/-- Witness for C10: a dual-track-shaped result with an empty
`recommendations` list, and a result with the attribute absent. -/
theorem display_gating_witness :
    displayResults demoDualEmptyRec = Except.ok DisplayOutcome.noMoviesFound ∧
    displayResults demoNoRec = Except.error "AttributeError: recommendations" :=
  display_gating demoDualEmptyRec demoNoRec (by decide) rfl rfl

/-! Characterization of the e-mail matcher: each layer of the pattern
accepts exactly the corresponding decompositions. -/

theorem matchTld_iff (cs : List Char) :
    matchTld cs = true ↔ 2 ≤ cs.length ∧ ∀ c ∈ cs, c.isAlpha = true := by
  simp [matchTld, List.all_eq_true]

theorem matchDomTail_iff (cs : List Char) :
    matchDomTail cs = true ↔
      ∃ d t : List Char, cs = d ++ '.' :: t ∧ (∀ c ∈ d, isDomainChar c = true) ∧
        2 ≤ t.length ∧ (∀ c ∈ t, c.isAlpha = true) := by
  induction cs with
  | nil =>
    constructor
    · intro h; simp [matchDomTail] at h
    · rintro ⟨d, t, heq, -, -, -⟩
      cases d <;> simp at heq
  | cons c rest ih =>
    constructor
    · intro h
      have h' : (c = '.' ∧ matchTld rest = true) ∨
          (isDomainChar c = true ∧ matchDomTail rest = true) := by
        simpa [matchDomTail, Bool.or_eq_true, Bool.and_eq_true] using h
      rcases h' with ⟨hc, htld⟩ | ⟨hc, hrec⟩
      · obtain ⟨h2, ha⟩ := (matchTld_iff rest).1 htld
        exact ⟨[], rest, by simp [hc], by simp, h2, ha⟩
      · obtain ⟨d, t, heq, hd, h2, ha⟩ := ih.1 hrec
        refine ⟨c :: d, t, by simp [heq], ?_, h2, ha⟩
        intro x hx
        rcases List.mem_cons.1 hx with hx | hx
        · subst hx; exact hc
        · exact hd x hx
    · rintro ⟨d, t, heq, hd, h2, ha⟩
      cases d with
      | nil =>
        simp only [List.nil_append, List.cons.injEq] at heq
        obtain ⟨hc, hrest⟩ := heq
        subst hc; subst hrest
        have ht : matchTld rest = true := (matchTld_iff rest).2 ⟨h2, ha⟩
        simp [matchDomTail, ht]
      | cons c0 d0 =>
        simp only [List.cons_append, List.cons.injEq] at heq
        obtain ⟨hc0, hrest⟩ := heq
        subst hc0
        have hrec : matchDomTail rest = true :=
          ih.2 ⟨d0, t, hrest, fun x hx => hd x (List.mem_cons_of_mem _ hx), h2, ha⟩
        simp [matchDomTail, hrec, hd c (List.mem_cons_self _ _)]

theorem matchDomain_iff (cs : List Char) :
    matchDomain cs = true ↔
      ∃ d t : List Char, cs = d ++ '.' :: t ∧ d ≠ [] ∧
        (∀ c ∈ d, isDomainChar c = true) ∧
        2 ≤ t.length ∧ (∀ c ∈ t, c.isAlpha = true) := by
  cases cs with
  | nil =>
    constructor
    · intro h; simp [matchDomain] at h
    · rintro ⟨d, t, heq, hne, -, -, -⟩
      cases d with
      | nil => exact absurd rfl hne
      | cons a b => simp at heq
  | cons c rest =>
    constructor
    · intro h
      simp only [matchDomain, Bool.and_eq_true] at h
      obtain ⟨hc, ht⟩ := h
      obtain ⟨d, t, heq, hd, h2, ha⟩ := (matchDomTail_iff rest).1 ht
      refine ⟨c :: d, t, by simp [heq], by simp, ?_, h2, ha⟩
      intro x hx
      rcases List.mem_cons.1 hx with hx | hx
      · subst hx; exact hc
      · exact hd x hx
    · rintro ⟨d, t, heq, hne, hd, h2, ha⟩
      cases d with
      | nil => exact absurd rfl hne
      | cons c0 d0 =>
        simp only [List.cons_append, List.cons.injEq] at heq
        obtain ⟨hc0, hrest⟩ := heq
        subst hc0
        simp only [matchDomain, Bool.and_eq_true]
        exact ⟨hd c (List.mem_cons_self _ _),
          (matchDomTail_iff rest).2
            ⟨d0, t, hrest, fun x hx => hd x (List.mem_cons_of_mem _ hx), h2, ha⟩⟩

theorem matchLocalTail_iff (cs : List Char) :
    matchLocalTail cs = true ↔
      ∃ l rest : List Char, cs = l ++ '@' :: rest ∧
        (∀ c ∈ l, isLocalChar c = true) ∧ matchDomain rest = true := by
  induction cs with
  | nil =>
    constructor
    · intro h; simp [matchLocalTail] at h
    · rintro ⟨l, rest, heq, -, -⟩
      cases l <;> simp at heq
  | cons c cs ih =>
    by_cases hc : c = '@'
    · subst hc
      constructor
      · intro h
        refine ⟨[], cs, rfl, by simp, ?_⟩
        simpa [matchLocalTail] using h
      · rintro ⟨l, rest, heq, hl, hdom⟩
        cases l with
        | nil =>
          simp only [List.nil_append, List.cons.injEq, true_and] at heq
          subst heq
          simpa [matchLocalTail] using hdom
        | cons c0 l0 =>
          simp only [List.cons_append, List.cons.injEq] at heq
          obtain ⟨hc0, -⟩ := heq
          have hbad := hl c0 (by rw [← hc0]; exact List.mem_cons_self _ _)
          rw [← hc0] at hbad
          exact absurd hbad (by decide)
    · constructor
      · intro h
        have h' : isLocalChar c = true ∧ matchLocalTail cs = true := by
          simpa [matchLocalTail, hc] using h
        obtain ⟨l, rest, heq, hl, hdom⟩ := ih.1 h'.2
        refine ⟨c :: l, rest, by simp [heq], ?_, hdom⟩
        intro x hx
        rcases List.mem_cons.1 hx with hx | hx
        · subst hx; exact h'.1
        · exact hl x hx
      · rintro ⟨l, rest, heq, hl, hdom⟩
        cases l with
        | nil =>
          simp only [List.nil_append, List.cons.injEq] at heq
          exact absurd heq.1 hc
        | cons c0 l0 =>
          simp only [List.cons_append, List.cons.injEq] at heq
          obtain ⟨hc0, hcs⟩ := heq
          subst hc0
          have hml : matchLocalTail cs = true :=
            ih.2 ⟨l0, rest, hcs, fun x hx => hl x (List.mem_cons_of_mem _ hx), hdom⟩
          simp [matchLocalTail, hc, hml, hl c (List.mem_cons_self _ _)]

theorem matchEmail_iff (cs : List Char) : matchEmail cs = true ↔ EmailShape cs := by
  cases cs with
  | nil =>
    constructor
    · intro h; simp [matchEmail] at h
    · rintro ⟨l, d, t, heq, -, -⟩
      cases l <;> simp at heq
  | cons c cs =>
    constructor
    · intro h
      simp only [matchEmail, Bool.and_eq_true] at h
      obtain ⟨hc, ht⟩ := h
      obtain ⟨l, rest, heq, hl, hdom⟩ := (matchLocalTail_iff cs).1 ht
      obtain ⟨d, t, heq2, hdne, hd, h2, ha⟩ := (matchDomain_iff rest).1 hdom
      refine ⟨c :: l, d, t, by simp [heq, heq2], by simp, ?_, hdne, hd, h2, ha⟩
      intro x hx
      rcases List.mem_cons.1 hx with hx | hx
      · subst hx; exact hc
      · exact hl x hx
    · rintro ⟨l, d, t, heq, hlne, hl, hdne, hd, h2, ha⟩
      cases l with
      | nil => exact absurd rfl hlne
      | cons c0 l0 =>
        simp only [List.cons_append, List.cons.injEq] at heq
        obtain ⟨hc0, hcs⟩ := heq
        subst hc0
        simp only [matchEmail, Bool.and_eq_true]
        refine ⟨hl c (List.mem_cons_self _ _), ?_⟩
        exact (matchLocalTail_iff cs).2 ⟨l0, d ++ '.' :: t, hcs,
          fun x hx => hl x (List.mem_cons_of_mem _ hx),
          (matchDomain_iff _).2 ⟨d, t, rfl, hdne, hd, h2, ha⟩⟩

/-- Counterexample for C8: the TLD of `"a@b.c"` is a single letter, which
the pattern's `[a-zA-Z]{2,}` rejects, so `validate_email "a@b.c"` is
`false` — not `true` as claimed. -/
theorem validate_email_short_tld_rejected : validate_email "a@b.c" = false := by
  decide

/-- C8 as amended: `validate_email` accepts exactly the strings of the shape
`local@domain.tld` with an alphabetic TLD of length at least 2 (one final
newline tolerated, as Python's `$` is); consequently `"a@b.c"` is rejected
(its TLD has length 1), `"not-an-email"` and `""` are rejected, and a
well-formed address is accepted. -/
theorem validate_email_characterization :
    (∀ s : String, validate_email s = true ↔ EmailShape (stripFinalNewline s.data)) ∧
    validate_email "a@b.c" = false ∧
    validate_email "not-an-email" = false ∧
    validate_email "" = false ∧
    validate_email "user@example.com" = true :=
  ⟨fun s => matchEmail_iff (stripFinalNewline s.data),
    by decide, by decide, by decide, by decide⟩

/-- C9: for non-empty signup inputs the validator reports the first
applicable violation in the order invalid email → password mismatch →
password too short; `"abc"` with matching confirmation is reported too
short, `"abcdef"` against `"abcdeg"` is reported a mismatch. -/
theorem signup_precedence (email pwd verify : String)
    (he : email ≠ "") (hp : pwd ≠ "") (hv : verify ≠ "") :
    signup_error email pwd verify =
      (if validate_email email = false then some "Please enter a valid email address."
       else if pwd ≠ verify then some "Passwords do not match."
       else if pwd.length < 6 then some "Password must be at least 6 characters."
       else none) ∧
    signup_error "user@example.com" "abc" "abc"
      = some "Password must be at least 6 characters." ∧
    signup_error "user@example.com" "abcdef" "abcdeg"
      = some "Passwords do not match." := by
  refine ⟨?_, by decide, by decide⟩
  have he' : truthy email = true := by simp [truthy, he]
  have hp' : truthy pwd = true := by simp [truthy, hp]
  have hv' : truthy verify = true := by simp [truthy, hv]
  by_cases hval : validate_email email = true
  · by_cases hpv : pwd = verify
    · simp [signup_error, he', hp', hv', hval, hpv]
    · simp [signup_error, he', hp', hv', hval, hpv]
  · have hval' : validate_email email = false := by simpa using hval
    simp [signup_error, he', hval']

/-- Witness for C9: concrete non-empty inputs with a valid email. -/
theorem signup_precedence_witness :
    signup_error "user@example.com" "abc" "abc"
      = some "Password must be at least 6 characters." ∧
    signup_error "user@example.com" "abcdef" "abcdeg"
      = some "Passwords do not match." :=
  (signup_precedence "user@example.com" "abcdef" "abcdef"
    (by decide) (by decide) (by decide)).2

/-! Title resolution and field defaulting. -/

theorem head?_filter_eq_find? {α : Type} (p : α → Bool) (l : List α) :
    (l.filter p).head? = l.find? p := by
  induction l with
  | nil => rfl
  | cons a l ih =>
    cases hp : p a <;> simp [List.filter_cons, List.find?_cons, hp, ih]

/-- C4: resolution lowers both sides (case-insensitive) and exact match
takes precedence over the contains fallback, for every semantics `low` of
Python's `str.lower()` and `contains` of pandas `str.contains`: whenever
some catalog row's lowered title equals the lowered query, the details come
from the first such row (`find?`) and the fallback never influences the
outcome; the fallback decides only when no exact match exists; with the
catalog titled "Heat Wave" then "Heat" (all ASCII, where `asciiLower`
coincides with `str.lower()`), resolving "Heat" — or "HEAT" — yields the
"Heat" record, not "Heat Wave", whatever the fallback's semantics. -/
theorem exact_match_precedence (low : String → String)
    (contains : String → String → Bool)
    (catalog : List CatalogRow) (q : String)
    (h : ∃ r ∈ catalog, low r.title = low q) :
    get_movie_details low contains catalog q
      = (catalog.find? (fun r => low r.title == low q)).map
          (fun r => projectRow r q) ∧
    (∀ (cat2 : List CatalogRow) (q2 : String),
      (∀ r ∈ cat2, low r.title ≠ low q2) →
      get_movie_details low contains cat2 q2
        = ((cat2.filter (fun r => contains (low r.title) (low q2))).head?).map
            (fun r => projectRow r q2)) ∧
    get_movie_details asciiLower contains heatCatalog "Heat"
      = some (projectRow rowHeat "Heat") ∧
    get_movie_details asciiLower contains heatCatalog "HEAT"
      = some (projectRow rowHeat "HEAT") ∧
    (get_movie_details asciiLower contains heatCatalog "Heat").map (fun d => d.title)
      = some (PyVal.pstr "Heat") := by
  refine ⟨?_, ?_, rfl, rfl, rfl⟩
  · have hne : exactMatches low catalog q ≠ [] := by
      obtain ⟨r, hr, ht⟩ := h
      intro hnil
      rw [exactMatches, List.filter_eq_nil_iff] at hnil
      exact hnil r hr (by simp [ht])
    have hie : (exactMatches low catalog q).isEmpty = false :=
      List.isEmpty_eq_false.2 hne
    rw [get_movie_details, firstMatch, hie]
    simp only [Bool.false_eq_true, if_false]
    rw [exactMatches, head?_filter_eq_find?]
  · intro cat2 q2 hno
    have hnil : exactMatches low cat2 q2 = [] := by
      rw [exactMatches, List.filter_eq_nil_iff]
      intro r hr hbeq
      exact hno r hr (by simpa using hbeq)
    rw [get_movie_details, firstMatch, hnil]
    simp [subMatches]

/-- Witness for C4: the Heat / Heat Wave catalog, with the external
operations instantiated by `asciiLower` (equal to `str.lower()` on these
ASCII strings) and `substrContains` (equal to pandas `str.contains` on
metacharacter-free patterns; irrelevant here, as an exact match exists). -/
theorem exact_match_precedence_witness :
    get_movie_details asciiLower substrContains heatCatalog "Heat"
      = some (projectRow rowHeat "Heat") :=
  (exact_match_precedence asciiLower substrContains heatCatalog "Heat"
    (by decide)).2.2.1

theorem safe_get_needsDefault (row : CatalogRow) (key : String) (dflt : PyVal)
    (h : needsDefault (rowGet row key) = true) :
    safe_get row key dflt = dflt := by
  unfold safe_get
  cases hv : rowGet row key with
  | none =>
    cases dflt <;> simp [Option.getD]
  | some v =>
    rw [hv] at h
    cases v with
    | pstr s => simp [needsDefault] at h
    | pnum n => simp [needsDefault] at h
    | pnan => simp [Option.getD]
    | pnone => simp [Option.getD]
    | plist xs =>
      simp only [needsDefault, List.isEmpty_iff] at h
      subst h
      simp [Option.getD]

theorem safe_get_not_bad (row : CatalogRow) (key : String) (dflt : PyVal)
    (h : isBadVal dflt = false) :
    isBadVal (safe_get row key dflt) = false := by
  unfold safe_get
  cases hv : rowGet row key with
  | none =>
    cases dflt <;> simp_all [Option.getD, isBadVal]
  | some v =>
    cases v with
    | pstr s => simp [Option.getD, isBadVal]
    | pnum n => simp [Option.getD, isBadVal]
    | pnan => simpa [Option.getD] using h
    | pnone => simpa [Option.getD] using h
    | plist xs =>
      by_cases hx : 0 < xs.length
      · simp [Option.getD, hx, isBadVal]
      · simp [Option.getD, hx, h]

/-- C5: every projected field whose underlying cell is missing, None, NaN
or an empty list is replaced by its defined default (`'N/A'` for the scalar
fields, the empty list for the list-valued fields, the overview notice for
`overview`), and no field of the record is ever a raw None or NaN; the
`title` cell of a matched row is always a present string, so its default
(the queried title) is never needed and the field carries the row's own
title. -/
theorem details_default_substitution (row : CatalogRow) (mt : String) :
    (isBadVal (projectRow row mt).title = false ∧
     isBadVal (projectRow row mt).year = false ∧
     isBadVal (projectRow row mt).directors = false ∧
     isBadVal (projectRow row mt).cast = false ∧
     isBadVal (projectRow row mt).production_companies = false ∧
     isBadVal (projectRow row mt).overview = false ∧
     isBadVal (projectRow row mt).genres = false ∧
     isBadVal (projectRow row mt).runtime = false ∧
     isBadVal (projectRow row mt).vote_average = false) ∧
    (needsDefault (rowGet row "year") = true →
      (projectRow row mt).year = PyVal.pstr "N/A") ∧
    (needsDefault (rowGet row "directors") = true →
      (projectRow row mt).directors = PyVal.plist []) ∧
    (needsDefault (rowGet row "cast") = true →
      (projectRow row mt).cast = PyVal.plist []) ∧
    (needsDefault (rowGet row "production_companies") = true →
      (projectRow row mt).production_companies = PyVal.plist []) ∧
    (needsDefault (rowGet row "overview") = true →
      (projectRow row mt).overview = PyVal.pstr "No overview available.") ∧
    (needsDefault (rowGet row "genres") = true →
      (projectRow row mt).genres = PyVal.plist []) ∧
    (needsDefault (rowGet row "runtime") = true →
      (projectRow row mt).runtime = PyVal.pstr "N/A") ∧
    (needsDefault (rowGet row "vote_average") = true →
      (projectRow row mt).vote_average = PyVal.pstr "N/A") ∧
    needsDefault (rowGet row "title") = false ∧
    (projectRow row mt).title = PyVal.pstr row.title := by
  refine ⟨⟨safe_get_not_bad row "title" (PyVal.pstr mt) rfl,
      safe_get_not_bad row "year" (PyVal.pstr "N/A") rfl,
      safe_get_not_bad row "directors" (PyVal.plist []) rfl,
      safe_get_not_bad row "cast" (PyVal.plist []) rfl,
      safe_get_not_bad row "production_companies" (PyVal.plist []) rfl,
      safe_get_not_bad row "overview" (PyVal.pstr "No overview available.") rfl,
      safe_get_not_bad row "genres" (PyVal.plist []) rfl,
      safe_get_not_bad row "runtime" (PyVal.pstr "N/A") rfl,
      safe_get_not_bad row "vote_average" (PyVal.pstr "N/A") rfl⟩,
    fun h => safe_get_needsDefault row "year" (PyVal.pstr "N/A") h,
    fun h => safe_get_needsDefault row "directors" (PyVal.plist []) h,
    fun h => safe_get_needsDefault row "cast" (PyVal.plist []) h,
    fun h => safe_get_needsDefault row "production_companies" (PyVal.plist []) h,
    fun h => safe_get_needsDefault row "overview" (PyVal.pstr "No overview available.") h,
    fun h => safe_get_needsDefault row "genres" (PyVal.plist []) h,
    fun h => safe_get_needsDefault row "runtime" (PyVal.pstr "N/A") h,
    fun h => safe_get_needsDefault row "vote_average" (PyVal.pstr "N/A") h,
    rfl, rfl⟩

end Kineto
